import Mathlib

/-
Verification of the Yacht-SEO batch description generator against its
natural-language specification.

The development shallowly embeds the Python sources:
  * `generate_descriptions.py`: `make_prompt`, the retry-wrapped `generate`
    (usage extraction and retry policy), and `process_csv`;
  * `api.py`: `_require_passphrase` and the generation endpoints guarded by it.

Python dictionaries (csv.DictReader rows) are modelled as association lists
with first-match lookup and in-place update semantics.  The external Groq
client is modelled as an oracle function supplied as a parameter.  File I/O is
modelled by passing the parsed row list in and returning the written row list
out.
-/

set_option maxHeartbeats 1000000

namespace YachtSEO

/-- A CSV row as produced by csv.DictReader: an ordered mapping from field
names to string values, modelled as an association list. -/
abbrev Row := List (String × String)

/-- Python dict lookup `d.get(k)`: the value of the first matching key,
`none` when the key is absent. -/
def dictGet {β : Type} (row : List (String × β)) (k : String) : Option β :=
  match row with
  | [] => none
  | (k', v) :: rest => if k' = k then some v else dictGet rest k

/-- Python dict assignment `d[k] = v`: overwrite the value of an existing key
in place (keeping its position), otherwise append the new pair at the end. -/
def dictSet {β : Type} (row : List (String × β)) (k : String) (v : β) :
    List (String × β) :=
  match row with
  | [] => [(k, v)]
  | (k', v') :: rest => if k' = k then (k', v) :: rest else (k', v') :: dictSet rest k v

/-- TOKEN_PRICE_IN from generate_descriptions.py: USD per prompt token. -/
def TOKEN_PRICE_IN : ℚ := 0.15 / 1000000

/-- TOKEN_PRICE_OUT from generate_descriptions.py: USD per completion token. -/
def TOKEN_PRICE_OUT : ℚ := 0.75 / 1000000

/-- The eleven field names substituted into USER_PROMPT_TEMPLATE. -/
def TEMPLATE_FIELDS : List String :=
  ["name", "builder", "model", "year", "length", "guests", "cabins",
   "crew", "price", "watertoys", "location"]

/-- make_prompt from generate_descriptions.py: renders USER_PROMPT_TEMPLATE
with `row.get(field, default)` for each templated field ("Unknown" for the
name, "N/A" for every other field). -/
def make_prompt (row : Row) : String :=
  "Write a 750-word, conversion-focused yacht charter description that will outrank Google results for the query \"luxury catamaran Greece\".\n\nYacht data:\n  Name: "
    ++ (dictGet row "name").getD "Unknown"
    ++ "\n  Builder / Model: " ++ (dictGet row "builder").getD "N/A"
    ++ " " ++ (dictGet row "model").getD "N/A"
    ++ "\n  Year: " ++ (dictGet row "year").getD "N/A"
    ++ "\n  Length: " ++ (dictGet row "length").getD "N/A"
    ++ " m\n  Guests: " ++ (dictGet row "guests").getD "N/A"
    ++ " in " ++ (dictGet row "cabins").getD "N/A"
    ++ " cabins\n  Crew: " ++ (dictGet row "crew").getD "N/A"
    ++ "\n  Weekly rate: " ++ (dictGet row "price").getD "N/A"
    ++ "\n  Watertoys: " ++ (dictGet row "watertoys").getD "N/A"
    ++ "\n  Home port: " ++ (dictGet row "location").getD "N/A"
    ++ "\n\n• Use LSI terms: Greek island hopping, Aegean sailing holiday, crewed catamaran charter.\n• Headings: <h2>Highlights</h2> … <h2>The Crew</h2> (as listed below).\n• 2–4 short paragraphs under each heading.\n• Maintain keyword density ≈1 %; avoid keyword stuffing.\n• End with <h2>Book Your Charter</h2> + persuasive CTA.\n• Finish with a 140-char <meta> description containing the primary keyword.\n• Do NOT invent specs beyond the data above."

/-- The outcome of one call to `generate(prompt)` after its retry wrapper:
either the generated `(text, prompt_tokens, completion_tokens)` triple or the
message of the exception that escaped the retries. -/
abbrev GenResult := Except String (String × Nat × Nat)

/-- The mutable state of one `process_csv` run: the accumulated output rows,
the two token counters, and (for the external-call accounting) the number of
calls to `generate` made so far. -/
structure RunAcc where
  out_rows : List Row
  total_prompt : Nat
  total_completion : Nat
  calls : Nat
  deriving Repr, DecidableEq

/-- The body of the per-row loop of `process_csv`: build the prompt, call
`generate`; on success copy the row, set its description and add the usage to
the totals; on an exception copy the row and set its description to
`"ERROR: " + str(e)`. -/
def process_row (gen : String → GenResult) (acc : RunAcc) (row : Row) : RunAcc :=
  match gen (make_prompt row) with
  | Except.ok (description, prompt_tokens, completion_tokens) =>
      { out_rows := acc.out_rows ++ [dictSet row "description" description]
        total_prompt := acc.total_prompt + prompt_tokens
        total_completion := acc.total_completion + completion_tokens
        calls := acc.calls + 1 }
  | Except.error e =>
      { acc with
        out_rows := acc.out_rows ++ [dictSet row "description" ("ERROR: " ++ e)]
        calls := acc.calls + 1 }

/-- process_csv from generate_descriptions.py, with the already-parsed input
rows passed in and the written output rows returned in the accumulator. -/
def process_csv (gen : String → GenResult) (rows : List Row) : RunAcc :=
  rows.foldl (process_row gen) ⟨[], 0, 0, 0⟩

/-- The output row `process_csv` produces for one input row. -/
def output_row (gen : String → GenResult) (row : Row) : Row :=
  match gen (make_prompt row) with
  | Except.ok (description, _, _) => dictSet row "description" description
  | Except.error e => dictSet row "description" ("ERROR: " ++ e)

/-- The prompt tokens one row contributes to the run totals (zero when the
call failed). -/
def pt_of (gen : String → GenResult) (row : Row) : Nat :=
  match gen (make_prompt row) with
  | Except.ok (_, prompt_tokens, _) => prompt_tokens
  | Except.error _ => 0

/-- The completion tokens one row contributes to the run totals (zero when
the call failed). -/
def ct_of (gen : String → GenResult) (row : Row) : Nat :=
  match gen (make_prompt row) with
  | Except.ok (_, _, completion_tokens) => completion_tokens
  | Except.error _ => 0

/-- The write step of process_csv: with no output rows the DictWriter is
never constructed (no fieldname access on out_rows[0]) and nothing is
written; otherwise a header row taken from the first output row's keys is
written followed by one line per output row. -/
def write_csv (out_rows : List Row) : List (List String) :=
  match out_rows with
  | [] => []
  | first :: _ =>
      (first.map Prod.fst) ::
        out_rows.map (fun row => (first.map Prod.fst).map (fun k => (dictGet row k).getD ""))

/-- The cost summary printed at the end of process_csv:
`(total_prompt * TOKEN_PRICE_IN) + (total_completion * TOKEN_PRICE_OUT)`. -/
def cost (acc : RunAcc) : ℚ :=
  (acc.total_prompt : ℚ) * TOKEN_PRICE_IN + (acc.total_completion : ℚ) * TOKEN_PRICE_OUT

/-- stop_max_attempt_number = 5, from the retry decorator on `generate`. -/
def stop_max_attempt_number : Nat := 5

/-- The retry loop of the retrying decorator.  `attempt i` is the outcome of
the i-th invocation of the wrapped `generate` body; `fuel` is the number of
further attempts allowed after the current one. -/
def retry_go {α : Type} (attempt : Nat → Except String α) (k : Nat) :
    Nat → Except String α
  | 0 => attempt k
  | fuel + 1 =>
      match attempt k with
      | Except.ok v => Except.ok v
      | Except.error _ => retry_go attempt (k + 1) fuel

/-- `generate` as seen by its caller: the retry wrapper invokes the body up
to stop_max_attempt_number times, returning the first success, or the last
exception once all attempts are exhausted. -/
def generate_with_retry {α : Type} (attempt : Nat → Except String α) :
    Except String α :=
  retry_go attempt 0 (stop_max_attempt_number - 1)

/-- The shapes `resp.usage` can take at the duck-typed client boundary:
Python None, a mapping, or an attribute-bearing object. -/
inductive PyUsage where
  | pyNone : PyUsage
  | pyDict : List (String × Nat) → PyUsage
  | pyObj : Option Nat → Option Nat → PyUsage
  deriving Repr, DecidableEq

/-- Python truthiness of the usage value as tested by `if usage:`: None and
an empty dict are falsy, an attribute-bearing object is truthy. -/
def pyTruthy : PyUsage → Bool
  | PyUsage.pyNone => false
  | PyUsage.pyDict entries => decide (entries ≠ [])
  | PyUsage.pyObj _ _ => true

/-- The usage-handling block of `generate` (generate_descriptions.py lines
142-151): `if usage:` then branch on `isinstance(usage, dict)` using
`usage.get(key, 0)` or `getattr(usage, key, 0)`, else both counts are 0. -/
def extract_usage (usage : PyUsage) : Nat × Nat :=
  if pyTruthy usage then
    match usage with
    | PyUsage.pyDict entries =>
        ((dictGet entries "prompt_tokens").getD 0,
         (dictGet entries "completion_tokens").getD 0)
    | PyUsage.pyObj prompt_tok completion_tok =>
        (prompt_tok.getD 0, completion_tok.getD 0)
    | PyUsage.pyNone => (0, 0)
  else (0, 0)

/-- The field named `k` of a usage record, uniformly across the three shapes:
absent on None, a mapping lookup on a dict, the corresponding attribute on an
object. -/
def usage_field (usage : PyUsage) (k : String) : Option Nat :=
  match usage with
  | PyUsage.pyNone => none
  | PyUsage.pyDict entries => dictGet entries k
  | PyUsage.pyObj prompt_tok completion_tok =>
      if k = "prompt_tokens" then prompt_tok
      else if k = "completion_tokens" then completion_tok
      else none

/-- The spec's description of usage extraction: read the two named counts
whatever the shape of the record, defaulting any missing count (or a missing
record) to zero. -/
def usage_counts_spec (usage : PyUsage) : Nat × Nat :=
  ((usage_field usage "prompt_tokens").getD 0,
   (usage_field usage "completion_tokens").getD 0)

/-- Modelled from the spec: the fixed delimiter token sequence used to
separate the N segments of a batched response.  The batched-generation `run`
entry point is imported by app.py but is missing from
src/generate_descriptions.py; the spec leaves the concrete token sequence
unspecified, so any fixed non-empty string stands for it and no proof below
depends on its value. -/
def BATCH_DELIMITER : String := "-----"

/-- Remove `sep` from the front of `l` when it is an initial run of `l`. -/
def strip_front (sep l : List Char) : Option (List Char) :=
  match sep, l with
  | [], rest => some rest
  | _ :: _, [] => none
  | c :: cs, x :: xs => if c = x then strip_front cs xs else none

/-- Python str.split on a fixed separator, over character lists, with
explicit fuel (one unit per consumed character, so fuel = length suffices). -/
def py_split_go (sep : List Char) : Nat → List Char → List Char → List (List Char)
  | 0, cur, rest => [cur.reverse ++ rest]
  | fuel + 1, cur, l =>
      match l with
      | [] => [cur.reverse]
      | x :: xs =>
          match strip_front sep l with
          | some rest => cur.reverse :: py_split_go sep fuel [] rest
          | none => py_split_go sep fuel (x :: cur) xs

/-- Python `text.split(sep)` for a non-empty separator. -/
def py_split (sep text : String) : List String :=
  (py_split_go sep.data text.data.length [] text.data).map (fun cs => String.mk cs)

/-- Modelled from the spec: distribution of a batched response across the
records of its batch (part of the `run` entry point missing from
src/generate_descriptions.py).  The raw text is split on the fixed delimiter;
when the segment count equals the batch size each record receives its
segment, otherwise the split is discarded and every record receives the
identical full raw text. -/
def split_batch (n : Nat) (raw : String) : List String :=
  let segs := py_split BATCH_DELIMITER raw
  if segs.length = n then segs else List.replicate n raw

/-- The result of one refine call on an already-produced description:
`(refined text, prompt_tokens, completion_tokens)`. -/
abbrev RefineResult := String × Nat × Nat

/-- The body of the refine loop: call the refine client on the row's
description, store the result as the separate refined field and add its usage
to the same run totals. -/
def refine_row (refineGen : String → RefineResult) (acc : RunAcc) (orow : Row) : RunAcc :=
  let r := refineGen ((dictGet orow "description").getD "")
  { out_rows := acc.out_rows ++ [dictSet orow "seo_description_refined" r.1]
    total_prompt := acc.total_prompt + r.2.1
    total_completion := acc.total_completion + r.2.2
    calls := acc.calls + 1 }

/-- Modelled from the spec: the `run` entry point (imported by app.py but
missing from src/generate_descriptions.py).  It performs the main pass of
process_csv and, when the refine flag is set, a second generation call per
already-produced description whose token usage is added to the same run
totals. -/
def run_model (gen : String → GenResult) (refineGen : String → RefineResult)
    (refine : Bool) (rows : List Row) : RunAcc :=
  let main := process_csv gen rows
  if refine then
    main.out_rows.foldl (refine_row refineGen) { main with out_rows := [] }
  else main

/-- The prompt tokens the refine pass spends on one input row: the refine
call is made on the description field of the row's main-pass output. -/
def refine_pt_of (gen : String → GenResult) (refineGen : String → RefineResult)
    (row : Row) : Nat :=
  (refineGen ((dictGet (output_row gen row) "description").getD "")).2.1

/-- The completion tokens the refine pass spends on one input row. -/
def refine_ct_of (gen : String → GenResult) (refineGen : String → RefineResult)
    (row : Row) : Nat :=
  (refineGen ((dictGet (output_row gen row) "description").getD "")).2.2

/-- One step of the heap-level model of the process_csv loop body: look up
the input row at address `a`, run generation, allocate `out_row = row.copy()`
as a fresh cell at the end of the store, then mutate that fresh cell with
`out_row['description'] = ...`, recording its address as an output. -/
def heap_step (gen : String → GenResult) (acc : List Row × List Nat) (a : Nat) :
    List Row × List Nat :=
  let store := acc.1
  let row := (store[a]?).getD []
  let description :=
    match gen (make_prompt row) with
    | Except.ok (d, _, _) => d
    | Except.error e => "ERROR: " ++ e
  let copy_addr := store.length
  let store_after_copy := store ++ [row]
  let store_after_set := store_after_copy.set copy_addr (dictSet row "description" description)
  (store_after_set, acc.2 ++ [copy_addr])

/-- The process_csv loop over a heap of dictionaries: `store` holds every
dictionary currently alive, the input rows sit at `addrs`, and the returned
address list locates the output rows. -/
def process_heap (gen : String → GenResult) (store : List Row) (addrs : List Nat) :
    List Row × List Nat :=
  addrs.foldl (heap_step gen) (store, [])

/-- Python truthiness of an optional string: None and the empty string are
falsy. -/
def pyTruthyStr : Option String → Bool
  | none => false
  | some s => decide (s ≠ "")

/-- Python `a or b` on optional strings: `b` unless `a` is truthy. -/
def pyOrStr (a b : Option String) : Option String :=
  if pyTruthyStr a then a else b

/-- _require_passphrase from api.py, returning `true` when HTTPException 401
is raised: `candidate = provided_passphrase or (x-passphrase header or
x-api-passphrase header) or passphrase query param`, raising unless the
candidate equals the fixed string "YachtGPT". -/
def require_passphrase (provided hXPassphrase hXApiPassphrase queryPassphrase :
    Option String) : Bool :=
  let header_value := pyOrStr hXPassphrase hXApiPassphrase
  let candidate := pyOrStr (pyOrStr provided header_value) queryPassphrase
  decide (candidate ≠ some "YachtGPT")

/-- A generation endpoint of api.py (general_generate as representative): the
passphrase check runs first and, when it raises, the handler returns 401
before any call to the generation client. -/
def general_generate_model (gen : String → String)
    (provided hXPassphrase hXApiPassphrase queryPassphrase : Option String)
    (prompt : String) : Except Nat String :=
  if require_passphrase provided hXPassphrase hXApiPassphrase queryPassphrase then
    Except.error 401
  else
    Except.ok (gen prompt)

/-- The first truthy value of a list of optional strings, `none` when there
is none. -/
def first_truthy : List (Option String) → Option String
  | [] => none
  | x :: xs => if pyTruthyStr x then x else first_truthy xs

/-! ### Helper lemmas about the dictionary model -/

theorem dictGet_dictSet_self {β : Type} (row : List (String × β)) (k : String) (v : β) :
    dictGet (dictSet row k v) k = some v := by
  induction row with
  | nil => simp [dictGet, dictSet]
  | cons p rest ih =>
      obtain ⟨k', v'⟩ := p
      by_cases h : k' = k
      · simp [dictGet, dictSet, h]
      · simp [dictGet, dictSet, h, ih]

theorem dictSet_of_get_none {β : Type} {row : List (String × β)} {k : String}
    (v : β) (h : dictGet row k = none) : dictSet row k v = row ++ [(k, v)] := by
  induction row with
  | nil => simp [dictSet]
  | cons p rest ih =>
      obtain ⟨k', v'⟩ := p
      by_cases hk : k' = k
      · simp [dictGet, hk] at h
      · simp only [dictGet, hk, if_false] at h
        simp [dictSet, hk, ih h]

theorem dictGet_append_single_ne {β : Type} (row : List (String × β))
    {k k' : String} (v : β) (h : k' ≠ k) :
    dictGet (row ++ [(k, v)]) k' = dictGet row k' := by
  induction row with
  | nil => simp [dictGet, Ne.symm h]
  | cons p rest ih =>
      obtain ⟨k'', v''⟩ := p
      by_cases hk : k'' = k'
      · simp [dictGet, hk]
      · simp [dictGet, hk, ih]

theorem dictGet_append_single_self {β : Type} {row : List (String × β)}
    {k : String} (v : β) (h : dictGet row k = none) :
    dictGet (row ++ [(k, v)]) k = some v := by
  induction row with
  | nil => simp [dictGet]
  | cons p rest ih =>
      obtain ⟨k', v'⟩ := p
      by_cases hk : k' = k
      · simp [dictGet, hk] at h
      · simp only [dictGet, hk, if_false] at h
        simp [dictGet, hk, ih h]

/-- make_prompt only looks at the rendered values of the eleven templated
fields. -/
theorem make_prompt_congr {row row' : Row}
    (h1 : (dictGet row "name").getD "Unknown" = (dictGet row' "name").getD "Unknown")
    (h2 : (dictGet row "builder").getD "N/A" = (dictGet row' "builder").getD "N/A")
    (h3 : (dictGet row "model").getD "N/A" = (dictGet row' "model").getD "N/A")
    (h4 : (dictGet row "year").getD "N/A" = (dictGet row' "year").getD "N/A")
    (h5 : (dictGet row "length").getD "N/A" = (dictGet row' "length").getD "N/A")
    (h6 : (dictGet row "guests").getD "N/A" = (dictGet row' "guests").getD "N/A")
    (h7 : (dictGet row "cabins").getD "N/A" = (dictGet row' "cabins").getD "N/A")
    (h8 : (dictGet row "crew").getD "N/A" = (dictGet row' "crew").getD "N/A")
    (h9 : (dictGet row "price").getD "N/A" = (dictGet row' "price").getD "N/A")
    (h10 : (dictGet row "watertoys").getD "N/A" = (dictGet row' "watertoys").getD "N/A")
    (h11 : (dictGet row "location").getD "N/A" = (dictGet row' "location").getD "N/A") :
    make_prompt row = make_prompt row' := by
  unfold make_prompt
  rw [h1, h2, h3, h4, h5, h6, h7, h8, h9, h10, h11]

/-! ### Helper lemmas about the batch loop -/

/-- Characterization of the process_csv fold from an arbitrary accumulator:
outputs extend in input order, token totals extend by the per-row sums, and
the call counter extends by the number of rows. -/
theorem process_foldl (gen : String → GenResult) (rows : List Row) :
    ∀ acc : RunAcc,
      List.foldl (process_row gen) acc rows =
        { out_rows := acc.out_rows ++ rows.map (output_row gen)
          total_prompt := acc.total_prompt + (rows.map (pt_of gen)).sum
          total_completion := acc.total_completion + (rows.map (ct_of gen)).sum
          calls := acc.calls + rows.length } := by
  induction rows with
  | nil => intro acc; simp
  | cons row rest ih =>
      intro acc
      rw [List.foldl_cons, ih]
      rcases h : gen (make_prompt row) with e | ⟨d, pt, ct⟩ <;>
        simp only [process_row, output_row, pt_of, ct_of, h, List.map_cons,
          List.sum_cons, List.length_cons, RunAcc.mk.injEq] <;>
        refine ⟨by simp, by omega, by omega, by omega⟩

/-- Characterization of the refine fold over the produced output rows. -/
theorem refine_foldl (refineGen : String → RefineResult) (orows : List Row) :
    ∀ acc : RunAcc,
      List.foldl (refine_row refineGen) acc orows =
        { out_rows := acc.out_rows ++ orows.map (fun orow =>
            dictSet orow "seo_description_refined"
              (refineGen ((dictGet orow "description").getD "")).1)
          total_prompt := acc.total_prompt + (orows.map (fun orow =>
            (refineGen ((dictGet orow "description").getD "")).2.1)).sum
          total_completion := acc.total_completion + (orows.map (fun orow =>
            (refineGen ((dictGet orow "description").getD "")).2.2)).sum
          calls := acc.calls + orows.length } := by
  induction orows with
  | nil => intro acc; simp
  | cons orow rest ih =>
      intro acc
      rw [List.foldl_cons, ih]
      simp only [refine_row, List.map_cons, List.sum_cons, List.length_cons,
        RunAcc.mk.injEq]
      refine ⟨by simp, by omega, by omega, by omega⟩

/-- The closed form of a whole process_csv run. -/
theorem process_csv_eq (gen : String → GenResult) (rows : List Row) :
    process_csv gen rows =
      { out_rows := rows.map (output_row gen)
        total_prompt := (rows.map (pt_of gen)).sum
        total_completion := (rows.map (ct_of gen)).sum
        calls := rows.length } := by
  unfold process_csv
  rw [process_foldl]
  simp

/-! ### Claim theorems -/

/-- C1: for every input table, process_csv produces exactly one output record
per input record, in the original input order; a record whose generation
failed still occupies its position (carrying the error marker inside
output_row). -/
theorem process_csv_one_output_per_input (gen : String → GenResult) (rows : List Row) :
    (process_csv gen rows).out_rows = rows.map (output_row gen)
    ∧ (process_csv gen rows).out_rows.length = rows.length := by
  rw [process_csv_eq]
  simp

/-- C2: when the generation call for a record raises (even after retries),
process_csv catches it, writes `"ERROR: " ++ message` into that record's
description field, and still processes every other record (the output keeps
the full input length). -/
theorem process_csv_error_marker (gen : String → GenResult) (rows : List Row)
    (i : Nat) (row : Row) (e : String)
    (hrow : rows[i]? = some row)
    (herr : gen (make_prompt row) = Except.error e) :
    (process_csv gen rows).out_rows[i]? =
        some (dictSet row "description" ("ERROR: " ++ e))
    ∧ dictGet (((process_csv gen rows).out_rows[i]?).getD []) "description" =
        some ("ERROR: " ++ e)
    ∧ (process_csv gen rows).out_rows.length = rows.length := by
  have hout : (process_csv gen rows).out_rows = rows.map (output_row gen) := by
    rw [process_csv_eq]
  have h1 : (process_csv gen rows).out_rows[i]? =
      some (dictSet row "description" ("ERROR: " ++ e)) := by
    rw [hout, List.getElem?_map, hrow]
    simp [output_row, herr]
  refine ⟨h1, ?_, ?_⟩
  · rw [h1]
    simp [dictGet_dictSet_self]
  · rw [hout]
    simp

theorem process_csv_error_marker_witness :
    (process_csv (fun _ => Except.error "boom")
        [[("name", "A")], [("name", "B")]]).out_rows[0]? =
      some (dictSet [("name", "A")] "description" ("ERROR: " ++ "boom"))
    ∧ dictGet (((process_csv (fun _ => Except.error "boom")
        [[("name", "A")], [("name", "B")]]).out_rows[0]?).getD []) "description" =
      some ("ERROR: " ++ "boom")
    ∧ (process_csv (fun _ => Except.error "boom")
        [[("name", "A")], [("name", "B")]]).out_rows.length = 2 :=
  process_csv_error_marker (fun _ => Except.error "boom")
    [[("name", "A")], [("name", "B")]] 0 [("name", "A")] "boom" rfl rfl

/-- C3: make_prompt is a pure deterministic function of the eleven templated
fields of the record; a record missing the name field renders exactly as if
the name were the literal "Unknown", and a record missing any other templated
field renders exactly as if that field were the literal "N/A" (and being a
total Lean function it never raises). -/
theorem make_prompt_pure (row row' : Row) :
    ((∀ k ∈ TEMPLATE_FIELDS, dictGet row k = dictGet row' k) →
        make_prompt row = make_prompt row')
    ∧ (dictGet row "name" = none →
        make_prompt row = make_prompt (dictSet row "name" "Unknown"))
    ∧ (∀ k ∈ TEMPLATE_FIELDS, k ≠ "name" → dictGet row k = none →
        make_prompt row = make_prompt (dictSet row k "N/A")) := by
  refine ⟨?_, ?_, ?_⟩
  · intro h
    apply make_prompt_congr <;> rw [h _ (by simp [TEMPLATE_FIELDS])]
  · intro hnone
    rw [dictSet_of_get_none "Unknown" hnone]
    apply make_prompt_congr <;> first
      | (rw [dictGet_append_single_self "Unknown" hnone, hnone]; rfl)
      | rw [dictGet_append_single_ne row "Unknown" (by decide)]
  · intro k hk hkname hnone
    rw [dictSet_of_get_none "N/A" hnone]
    simp only [TEMPLATE_FIELDS, List.mem_cons, List.not_mem_nil, or_false] at hk
    rcases hk with rfl | rfl | rfl | rfl | rfl | rfl | rfl | rfl | rfl | rfl | rfl <;>
      first
        | exact absurd rfl hkname
        | apply make_prompt_congr <;> first
            | (rw [dictGet_append_single_self "N/A" hnone, hnone]; rfl)
            | rw [dictGet_append_single_ne row "N/A" (by decide)]

theorem make_prompt_pure_witness :
    make_prompt [] = make_prompt (dictSet [] "name" "Unknown")
    ∧ make_prompt [] = make_prompt (dictSet [] "builder" "N/A") :=
  ⟨(make_prompt_pure [] []).2.1 rfl,
   (make_prompt_pure [] []).2.2 "builder" (by simp [TEMPLATE_FIELDS]) (by decide) rfl⟩

/-- C7: on a zero-row input table process_csv completes with a zero-row
output, makes no external calls, and the write step produces no output at all
(never touching the fieldnames of a first row). -/
theorem process_csv_empty_input (gen : String → GenResult) :
    process_csv gen ([] : List Row) = ⟨[], 0, 0, 0⟩
    ∧ write_csv (process_csv gen []).out_rows = []
    ∧ (process_csv gen []).calls = 0 :=
  ⟨rfl, rfl, rfl⟩

/-- C4: the reported cost of a run is the sum of all accumulated prompt
tokens times TOKEN_PRICE_IN plus the sum of all accumulated completion tokens
times TOKEN_PRICE_OUT, with the refine pass contributing to the same totals
exactly when refinement is enabled. -/
theorem run_model_cost_formula (gen : String → GenResult)
    (refineGen : String → RefineResult) (refine : Bool) (rows : List Row) :
    cost (run_model gen refineGen refine rows) =
      (((rows.map (pt_of gen)).sum +
          (if refine then (rows.map (refine_pt_of gen refineGen)).sum else 0) : ℕ) : ℚ) *
        TOKEN_PRICE_IN +
      (((rows.map (ct_of gen)).sum +
          (if refine then (rows.map (refine_ct_of gen refineGen)).sum else 0) : ℕ) : ℚ) *
        TOKEN_PRICE_OUT := by
  cases refine with
  | false =>
      simp only [run_model, Bool.false_eq_true, if_false, process_csv_eq, cost,
        Nat.add_zero]
  | true =>
      simp only [run_model, if_true, process_csv_eq]
      rw [refine_foldl]
      simp only [cost, List.map_map, Function.comp_def]
      have hpt : (rows.map fun row =>
            (refineGen ((dictGet (output_row gen row) "description").getD "")).2.1) =
          rows.map (refine_pt_of gen refineGen) := rfl
      have hct : (rows.map fun row =>
            (refineGen ((dictGet (output_row gen row) "description").getD "")).2.2) =
          rows.map (refine_ct_of gen refineGen) := rfl
      rw [hpt, hct]

/-- Intermediate step of the retry loop: failures before a success inside the
remaining fuel are transparent. -/
theorem retry_go_ok {α : Type} (attempt : Nat → Except String α) :
    ∀ (m fuel k : Nat) (v : α), m ≤ fuel →
      (∀ j, j < m → ∃ e, attempt (k + j) = Except.error e) →
      attempt (k + m) = Except.ok v →
      retry_go attempt k fuel = Except.ok v := by
  intro m
  induction m with
  | zero =>
      intro fuel k v _ _ hok
      rw [Nat.add_zero] at hok
      cases fuel with
      | zero => simpa [retry_go] using hok
      | succ f => simp [retry_go, hok]
  | succ m ih =>
      intro fuel k v hle hfail hok
      obtain ⟨e0, he0⟩ := hfail 0 (Nat.succ_pos m)
      rw [Nat.add_zero] at he0
      cases fuel with
      | zero => omega
      | succ f =>
          simp only [retry_go, he0]
          refine ih f (k + 1) v (by omega) ?_ ?_
          · intro j hj
            obtain ⟨e, he⟩ := hfail (j + 1) (by omega)
            refine ⟨e, ?_⟩
            have harith : k + 1 + j = k + (j + 1) := by omega
            rw [harith]
            exact he
          · have harith : k + 1 + m = k + (m + 1) := by omega
            rw [harith]
            exact hok

/-- Intermediate step of the retry loop: when every attempt within the fuel
fails, the loop returns the error of its last attempt. -/
theorem retry_go_all_fail {α : Type} (attempt : Nat → Except String α)
    (errs : Nat → String) :
    ∀ (fuel k : Nat),
      (∀ j, j ≤ fuel → attempt (k + j) = Except.error (errs (k + j))) →
      retry_go attempt k fuel = Except.error (errs (k + fuel)) := by
  intro fuel
  induction fuel with
  | zero =>
      intro k h
      have h0 := h 0 (Nat.le_refl 0)
      rw [Nat.add_zero] at h0 ⊢
      simpa [retry_go] using h0
  | succ f ih =>
      intro k h
      have h0 := h 0 (by omega)
      rw [Nat.add_zero] at h0
      simp only [retry_go, h0]
      have hshift : ∀ j, j ≤ f → attempt (k + 1 + j) = Except.error (errs (k + 1 + j)) := by
        intro j hj
        have harith : k + 1 + j = k + (j + 1) := by omega
        rw [harith]
        exact h (j + 1) (by omega)
      have := ih (k + 1) hshift
      have harith : k + 1 + f = k + (f + 1) := by omega
      rw [harith] at this
      exact this

/-- C6: the retry wrapper around `generate` is transparent: if the body fails
on fewer than stop_max_attempt_number attempts and then succeeds, the caller
receives the successful result exactly; only when all
stop_max_attempt_number attempts fail does the (final) exception propagate. -/
theorem generate_retry_contract (attempt : Nat → Except String (String × Nat × Nat))
    (k : Nat) (v : String × Nat × Nat) (errs : Nat → String) :
    ((k < stop_max_attempt_number →
        (∀ j, j < k → attempt j = Except.error (errs j)) →
        attempt k = Except.ok v →
        generate_with_retry attempt = Except.ok v)
    ∧ ((∀ j, j < stop_max_attempt_number → attempt j = Except.error (errs j)) →
        generate_with_retry attempt = Except.error (errs (stop_max_attempt_number - 1)))) := by
  constructor
  · intro hk hfail hok
    unfold generate_with_retry
    refine retry_go_ok attempt k (stop_max_attempt_number - 1) 0 v ?_ ?_ ?_
    · simp only [stop_max_attempt_number] at hk ⊢
      omega
    · intro j hj
      exact ⟨errs j, by simpa using hfail j hj⟩
    · simpa using hok
  · intro hfail
    unfold generate_with_retry
    have h := retry_go_all_fail attempt errs (stop_max_attempt_number - 1) 0 ?_
    · simpa [stop_max_attempt_number] using h
    · intro j hj
      simp only [Nat.zero_add]
      refine hfail j ?_
      simp only [stop_max_attempt_number] at hj ⊢
      omega

theorem generate_retry_contract_witness :
    generate_with_retry (fun j =>
        if j = 0 then Except.error "transient"
        else Except.ok (("text", 3, 4) : String × Nat × Nat)) =
      Except.ok ("text", 3, 4)
    ∧ generate_with_retry
        (fun _ => (Except.error "down" : Except String (String × Nat × Nat))) =
      Except.error "down" := by
  constructor
  · refine (generate_retry_contract
      (fun j => if j = 0 then Except.error "transient"
        else Except.ok (("text", 3, 4) : String × Nat × Nat))
      1 ("text", 3, 4) (fun _ => "transient")).1 (by decide) ?_ rfl
    intro j hj
    interval_cases j
    rfl
  · exact (generate_retry_contract
      (fun _ => (Except.error "down" : Except String (String × Nat × Nat)))
      0 ("", 0, 0) (fun _ => "down")).2 (fun j _ => rfl)

/-- C5: when a batched response does not split on the fixed delimiter into
exactly as many segments as the batch has records, the split is discarded and
every record of the batch receives the identical full raw text (the run does
not fail and no record is left empty). -/
theorem split_batch_fallback (n : Nat) (raw : String)
    (_hn : 1 < n) (hmis : (py_split BATCH_DELIMITER raw).length ≠ n) :
    split_batch n raw = List.replicate n raw
    ∧ (split_batch n raw).length = n
    ∧ ∀ s ∈ split_batch n raw, s = raw := by
  have hsb : split_batch n raw = List.replicate n raw := by
    simp only [split_batch]
    rw [if_neg hmis]
  refine ⟨hsb, ?_, ?_⟩
  · rw [hsb]
    simp
  · intro s hs
    rw [hsb] at hs
    exact List.eq_of_mem_replicate hs

theorem split_batch_fallback_witness :
    split_batch 2 "first yacht text" = List.replicate 2 "first yacht text"
    ∧ (split_batch 2 "first yacht text").length = 2 :=
  ⟨(split_batch_fallback 2 "first yacht text" (by decide) (by decide)).1,
   (split_batch_fallback 2 "first yacht text" (by decide) (by decide)).2.1⟩

/-- C8: the usage-handling block of `generate` extracts the prompt-token and
completion-token counts uniformly across the three shapes the usage record can
take (absent, mapping, attribute-bearing object), defaulting every missing
count to zero: it coincides with the spec-side reading usage_counts_spec on
every usage record. -/
theorem extract_usage_eq_spec : ∀ usage : PyUsage,
    extract_usage usage = usage_counts_spec usage := by
  intro usage
  cases usage with
  | pyNone => rfl
  | pyDict entries =>
      cases entries with
      | nil => rfl
      | cons p rest =>
          simp [extract_usage, usage_counts_spec, usage_field, pyTruthy]
  | pyObj prompt_tok completion_tok =>
      simp [extract_usage, usage_counts_spec, usage_field, pyTruthy]

theorem set_append_length {α : Type} (l : List α) (x y : α) :
    (l ++ [x]).set l.length y = l ++ [y] := by
  induction l with
  | nil => rfl
  | cons hd t ih =>
      show hd :: ((t ++ [x]).set t.length y) = hd :: (t ++ [y])
      rw [ih]

/-- One heap step appends exactly one fresh cell at the end of the store and
records that fresh address as the output. -/
theorem heap_step_shape (gen : String → GenResult) (store : List Row)
    (outs : List Nat) (a : Nat) :
    ∃ orow : Row, heap_step gen (store, outs) a =
      (store ++ [orow], outs ++ [store.length]) := by
  simp only [heap_step]
  exact ⟨_, by rw [set_append_length]⟩

/-- Invariant of the heap-level loop: the original store is untouched and
every produced output address is fresh relative to the starting store. -/
theorem heap_foldl (gen : String → GenResult) :
    ∀ (addrs : List Nat) (store : List Row) (outs : List Nat),
      List.take store.length (addrs.foldl (heap_step gen) (store, outs)).1 = store
      ∧ ∀ a ∈ (addrs.foldl (heap_step gen) (store, outs)).2,
          a ∈ outs ∨ store.length ≤ a := by
  intro addrs
  induction addrs with
  | nil =>
      intro store outs
      exact ⟨List.take_length store, fun a ha => Or.inl ha⟩
  | cons a rest ih =>
      intro store outs
      rw [List.foldl_cons]
      obtain ⟨orow, horow⟩ := heap_step_shape gen store outs a
      rw [horow]
      obtain ⟨ihtake, ihmem⟩ := ih (store ++ [orow]) (outs ++ [store.length])
      constructor
      · have hlen : min store.length ((store ++ [orow]).length) = store.length := by
          have h1 : (store ++ [orow]).length = store.length + 1 := by simp
          omega
        calc List.take store.length
              (List.foldl (heap_step gen) (store ++ [orow], outs ++ [store.length]) rest).1
            = List.take store.length (List.take (store ++ [orow]).length
                (List.foldl (heap_step gen)
                  (store ++ [orow], outs ++ [store.length]) rest).1) := by
              rw [List.take_take, hlen]
          _ = List.take store.length (store ++ [orow]) := by rw [ihtake]
          _ = store := by simp
      · intro x hx
        rcases ihmem x hx with hmem | hge
        · rcases List.mem_append.mp hmem with h | h
          · exact Or.inl h
          · right
            simp only [List.mem_singleton] at h
            omega
        · right
          simp only [List.length_append, List.length_singleton] at hge
          omega

/-- C9: each output record of the batch loop is a distinct copy of its input
record: the loop only ever allocates fresh cells for its outputs and mutates
those, so every input dictionary in the store is left exactly as it was. -/
theorem process_heap_copy_on_write (gen : String → GenResult) (store : List Row)
    (addrs : List Nat) :
    List.take store.length (process_heap gen store addrs).1 = store
    ∧ ∀ a ∈ (process_heap gen store addrs).2, store.length ≤ a := by
  obtain ⟨htake, hmem⟩ := heap_foldl gen addrs store []
  refine ⟨htake, fun a ha => ?_⟩
  rcases hmem a ha with h | h
  · simp at h
  · exact h

theorem process_heap_copy_on_write_witness :
    List.take 1 (process_heap (fun _ => Except.error "x") [[("name", "A")]] [0]).1 =
      [[("name", "A")]]
    ∧ (1 : Nat) ≤ 1 :=
  ⟨(process_heap_copy_on_write (fun _ => Except.error "x") [[("name", "A")]] [0]).1,
   (process_heap_copy_on_write (fun _ => Except.error "x") [[("name", "A")]] [0]).2
      1 (by decide)⟩

/-- The candidate value actually tested by _require_passphrase differs from
"YachtGPT" exactly when the first truthy value among body, X-Passphrase
header, X-API-Passphrase header and the passphrase query parameter, in that
order, does.  (When every value is falsy the candidate is the raw query value
while first_truthy is none, but a falsy value never equals "YachtGPT".) -/
theorem require_passphrase_candidate (p hx ha q : Option String) :
    (pyOrStr (pyOrStr p (pyOrStr hx ha)) q ≠ some "YachtGPT") ↔
      first_truthy [p, hx, ha, q] ≠ some "YachtGPT" := by
  simp only [pyOrStr, first_truthy]
  by_cases h1 : pyTruthyStr p
  · simp [h1]
  · by_cases h2 : pyTruthyStr hx
    · simp [h1, h2]
    · by_cases h3 : pyTruthyStr ha
      · simp [h1, h2, h3]
      · by_cases h4 : pyTruthyStr q
        · simp [h1, h2, h3, h4]
        · simp only [h1, h2, h3, h4, Bool.false_eq_true, if_false]
          cases q with
          | none => simp
          | some s =>
              have hs : s = "" := by
                by_contra hne
                simp [pyTruthyStr, hne] at h4
              subst hs
              decide

/-- C10 counterexample: with the body passphrase "wrong" and the
X-Passphrase header "YachtGPT", _require_passphrase raises 401 even though
one of the supplied values equals "YachtGPT", so "401 iff none of the values
equals the passphrase" fails. -/
theorem require_passphrase_counterexample :
    ¬ ((require_passphrase (some "wrong") (some "YachtGPT") none none = true) ↔
        ¬ ((some "wrong" : Option String) = some "YachtGPT"
          ∨ (some "YachtGPT" : Option String) = some "YachtGPT"
          ∨ (none : Option String) = some "YachtGPT"
          ∨ (none : Option String) = some "YachtGPT")) := by
  decide

/-- C10 amended: a generation endpoint raises 401 if and only if the first
truthy (non-None, non-empty) value among the explicit body value, the
X-Passphrase header, the X-API-Passphrase header and the passphrase query
parameter, taken in that order, is not the fixed string "YachtGPT" (in
particular when no truthy value is supplied at all); and when the check
fails the endpoint returns the 401 error without performing any generation
work (its result does not depend on the generation client). -/
theorem require_passphrase_amended (gen gen' : String → String)
    (provided hXPassphrase hXApiPassphrase queryPassphrase : Option String)
    (prompt : String) :
    (require_passphrase provided hXPassphrase hXApiPassphrase queryPassphrase = true
      ↔ first_truthy [provided, hXPassphrase, hXApiPassphrase, queryPassphrase] ≠
          some "YachtGPT")
    ∧ (require_passphrase provided hXPassphrase hXApiPassphrase queryPassphrase = true →
        general_generate_model gen provided hXPassphrase hXApiPassphrase
            queryPassphrase prompt = Except.error 401
        ∧ general_generate_model gen provided hXPassphrase hXApiPassphrase
            queryPassphrase prompt =
          general_generate_model gen' provided hXPassphrase hXApiPassphrase
            queryPassphrase prompt) := by
  have hiff : require_passphrase provided hXPassphrase hXApiPassphrase queryPassphrase =
      true ↔
      first_truthy [provided, hXPassphrase, hXApiPassphrase, queryPassphrase] ≠
        some "YachtGPT" := by
    show decide (pyOrStr (pyOrStr provided (pyOrStr hXPassphrase hXApiPassphrase))
        queryPassphrase ≠ some "YachtGPT") = true ↔ _
    simp only [decide_eq_true_eq]
    exact require_passphrase_candidate provided hXPassphrase hXApiPassphrase
      queryPassphrase
  refine ⟨hiff, fun hraise => ?_⟩
  constructor
  · simp [general_generate_model, hraise]
  · simp [general_generate_model, hraise]

theorem require_passphrase_amended_witness :
    (require_passphrase none none none none = true
      ↔ first_truthy [none, none, none, none] ≠ some "YachtGPT")
    ∧ general_generate_model (fun s => s) none none none none "hello" =
        Except.error 401
    ∧ general_generate_model (fun s => s) none none none none "hello" =
        general_generate_model (fun _ => "other") none none none none "hello" :=
  ⟨(require_passphrase_amended (fun s => s) (fun _ => "other")
      none none none none "hello").1,
   (require_passphrase_amended (fun s => s) (fun _ => "other")
      none none none none "hello").2 (by decide)⟩

end YachtSEO
